import Mathlib

/-!
Verification of the dataset sanitization pipeline in `py/data_sanitizer.py`.

The embedding models:
* `sanitize_image` — the per-task worker: create the destination directory,
  decode, convert to RGB, conditionally downscale via Pillow's
  `Image.thumbnail`, and re-encode as JPEG.  Filesystem and decoder behaviour
  is abstracted as a per-task environment (`PyEnv`) recording the outcome of
  each effectful step; the resolution arithmetic is modelled exactly.
* `sanitize_dataset` — the run controller: skip when the destination exists
  and no rescan is forced, discover tasks with `rglob` over lower- and
  upper-cased extension patterns, build destination paths with
  `with_suffix(".jpg")`, validate the pool size (multiprocessing raises
  `ValueError` for fewer than one process), process every task, and report.

Paths are lists of path segments.  The source tree is a list of entries
(relative segment list plus a file/directory kind); `rglob` pattern matching
is on the final segment, as for a `*<ext>` pattern.  A nonexistent source
directory is modelled as `none`: `Path.rglob` over a nonexistent directory
yields no entries and raises nothing.  Pillow's float arithmetic inside
`Image.thumbnail` is modelled with exact rational arithmetic.
-/

set_option maxHeartbeats 1000000

namespace DataSanitizer

/-- Lower-case every character, as `str.lower()` does for ASCII extensions. -/
def lowerChars (s : List Char) : List Char := s.map Char.toLower

/-- Upper-case every character, as `str.upper()` does for ASCII extensions. -/
def upperChars (s : List Char) : List Char := s.map Char.toUpper

/-- Glob matching for a pattern of shape `*<suffix>` against one path
segment: the segment must end with the literal suffix. -/
def hasSuffix (s p : List Char) : Bool := decide (s.reverse.take p.length = p.reverse)

/-- Render a path (list of segments) the way `str(Path(...))` renders an
absolute path, for use inside error messages. -/
def pathStr (segs : List String) : String :=
  segs.foldl (fun acc s => acc ++ "/" ++ s) ""

/-- Index of the last occurrence of a dot in a character list, mirroring
`str.rfind(".")` as used by `PurePath.with_suffix`. -/
def rfindDot : List Char → Option Nat
  | [] => none
  | c :: cs =>
    match rfindDot cs with
    | some i => some (i + 1)
    | none => if c = '.' then some 0 else none

/-- The effect of `Path(...).with_suffix(".jpg")` on a final path segment:
drop the existing suffix (the part from the last dot, provided that dot is
neither the first character nor the last) and append `.jpg`. -/
def withSuffixJpg (name : String) : String :=
  let cs := name.toList
  match rfindDot cs with
  | some i =>
    if 0 < i ∧ i + 1 < cs.length then String.mk (cs.take i ++ ".jpg".toList)
    else String.mk (cs ++ ".jpg".toList)
  | none => String.mk (cs ++ ".jpg".toList)

/-- Result of one Python-level step: normal return or a raised exception
carrying its message. -/
inductive Res (α : Type) where
  | ok (a : α)
  | err (msg : String)
deriving DecidableEq, Repr

/-- Whether a step returned normally. -/
def Res.isOk {α : Type} : Res α → Bool
  | .ok _ => true
  | .err _ => false

/-- A decoded image, reduced to its pixel dimensions. -/
structure Img where
  width : Nat
  height : Nat
deriving DecidableEq, Repr

/-- Constant `MAX_RESOLUTION_BEFORE_RESIZE = (2048, 2048)`. -/
def MAX_RESOLUTION_BEFORE_RESIZE : Nat × Nat := (2048, 2048)

/-- Constant `TARGET_SIZE_AFTER_RESIZE = (1024, 1024)`. -/
def TARGET_SIZE_AFTER_RESIZE : Nat × Nat := (1024, 1024)

/-- Pillow's `round_aspect` helper inside `Image.thumbnail`:
`max(min(floor(number), ceil(number), key=key), 1)`, where Python's
two-argument `min` with a key returns the first argument on ties. -/
def round_aspect (q : ℚ) (key : ℤ → ℚ) : ℤ :=
  max (if key ⌊q⌋ ≤ key ⌈q⌉ then ⌊q⌋ else ⌈q⌉) 1

/-- Pillow's `Image.thumbnail(size)` dimension computation: no-op when the
image already fits in the box, otherwise pick the downscaled size that
preserves the aspect ratio, rounding the free dimension to whichever of
floor/ceil is closest in ratio and clamping it to at least 1.  Python's
float division by a zero height raises `ZeroDivisionError`; division is
otherwise modelled with exact rationals. -/
def pilThumbnail (size : Nat × Nat) (w h : Nat) : Res (Nat × Nat) :=
  let x := size.1
  let y := size.2
  if w ≤ x ∧ h ≤ y then .ok (w, h)
  else if h = 0 then .err "float division by zero"
  else
    let aspect : ℚ := (w : ℚ) / (h : ℚ)
    if (x : ℚ) / (y : ℚ) ≥ aspect then
      .ok ((round_aspect ((y : ℚ) * aspect) (fun n => |aspect - (n : ℚ) / (y : ℚ)|)).toNat, y)
    else
      .ok (x, (round_aspect ((x : ℚ) / aspect)
        (fun n => if n = 0 then 0 else |aspect - (x : ℚ) / (n : ℚ)|)).toNat)

/-- Step 2 of `sanitize_image`: call `img.thumbnail(TARGET_SIZE_AFTER_RESIZE,
LANCZOS)` exactly when `img.width > 2048 or img.height > 2048`. -/
def resizeStep (img : Img) : Res Img :=
  if MAX_RESOLUTION_BEFORE_RESIZE.1 < img.width ∨ MAX_RESOLUTION_BEFORE_RESIZE.2 < img.height then
    match pilThumbnail TARGET_SIZE_AFTER_RESIZE img.width img.height with
    | .ok p => .ok ⟨p.1, p.2⟩
    | .err e => .err e
  else .ok img

/-- The image `sanitize_image` holds after the conditional `thumbnail` call,
when that call does not raise. -/
def thumbImg (img : Img) : Img :=
  match pilThumbnail TARGET_SIZE_AFTER_RESIZE img.width img.height with
  | .ok p => ⟨p.1, p.2⟩
  | .err _ => img

/-- One source/destination pair, as appended to `process_tasks`. -/
structure Task where
  src : List String
  dest : List String
deriving DecidableEq, Repr

/-- Outcomes of the effectful steps of `sanitize_image` for one task:
`os.makedirs(..., exist_ok=True)`, `Image.open`, `img.convert("RGB")` (which
never changes the dimensions), and `img.save(dest, "JPEG", quality=95)`. -/
structure PyEnv where
  makedirs : Res Unit
  openImg : Res Img
  convertRGB : Res Unit
  save : Res Unit

/-- The error string built by the `except` clause of `sanitize_image`:
`f"Error processing {src_path}: {e}"`. -/
def errMsg (src : List String) (e : String) : String :=
  "Error processing " ++ pathStr src ++ ": " ++ e

/-- Worker `sanitize_image`: run the steps in program order inside one `try` block;
the first raised exception is caught and rendered with `errMsg`; `None`
(here `none`) signals success. -/
def sanitize_image (env : PyEnv) (t : Task) : Option String :=
  match env.makedirs with
  | .err e => some (errMsg t.src e)
  | .ok _ =>
    match env.openImg with
    | .err e => some (errMsg t.src e)
    | .ok img =>
      match env.convertRGB with
      | .err e => some (errMsg t.src e)
      | .ok _ =>
        match resizeStep img with
        | .err e => some (errMsg t.src e)
        | .ok _ =>
          match env.save with
          | .err e => some (errMsg t.src e)
          | .ok _ => none

/-- All effectful steps of one task succeed (including the conditional
resize of the decoded image). -/
def pipelineOk (env : PyEnv) : Bool :=
  env.makedirs.isOk &&
    match env.openImg with
    | .err _ => false
    | .ok img => env.convertRGB.isOk && (resizeStep img).isOk && env.save.isOk

/-- Kind of a filesystem entry: `rglob` matches both. -/
inductive FKind where
  | file
  | dir
deriving DecidableEq, Repr

/-- An entry of the source tree, by its path relative to the source root:
directory segments, final segment, and whether it is a file or a
directory. -/
structure FSEntry where
  dir : List String
  base : String
  kind : FKind
deriving DecidableEq, Repr

/-- List `supported_formats = [".jpg", ".jpeg", ".png", ".bmp", ".tiff", ".webp"]`. -/
def supported_formats : List String :=
  [".jpg", ".jpeg", ".png", ".bmp", ".tiff", ".webp"]

/-- Matching of `source_path.rglob` for a star-then-suffix pattern: every
entry, of either kind, whose final segment ends with the literal pattern
suffix. -/
def rglobHits (es : List FSEntry) (pat : List Char) : List FSEntry :=
  es.filter fun e => hasSuffix e.base.toList pat

/-- The task-collection loop of `sanitize_dataset`: for each supported
extension, extend with the hits of the lower-cased pattern and then the hits
of the upper-cased pattern.  A nonexistent source directory (`none`) yields
no hits, as `Path.rglob` does. -/
def discover (srcFS : Option (List FSEntry)) : List FSEntry :=
  match srcFS with
  | none => []
  | some es =>
    supported_formats.flatMap fun ext =>
      rglobHits es (lowerChars ext.toList) ++ rglobHits es (upperChars ext.toList)

/-- An entry's path relative to the source root after extension
normalization, i.e. `relative_p.with_suffix(".jpg")`. -/
def normRel (e : FSEntry) : List String :=
  e.dir ++ [withSuffixJpg e.base]

/-- Build one element of `process_tasks`:
`(str(src_img_path), str((dest_path / relative_p).with_suffix(".jpg")))`. -/
def buildTask (srcRoot destRoot : List String) (e : FSEntry) : Task :=
  ⟨srcRoot ++ e.dir ++ [e.base], destRoot ++ normRel e⟩

/-- How `sanitize_dataset` terminates: a returned boolean or an uncaught
exception with its message. -/
inductive PyResult where
  | ret (b : Bool)
  | raise (msg : String)
deriving DecidableEq, Repr

/-- Observable trace of one `sanitize_dataset` run: its termination, the
entries enumerated by discovery, the tasks actually handed to the pool, the
full error list, and the error lines printed. -/
structure RunReport where
  result : PyResult
  discovered : List FSEntry
  processed : List Task
  errors : List String
  displayed : List String
deriving DecidableEq, Repr

/-- Pool size `num_workers = workers if workers is not None else min(16, cpu_count())`. -/
def numWorkers (workers : Option Int) (cpuCount : Nat) : Int :=
  workers.getD ((min 16 cpuCount : Nat) : Int)

/-- Controller `sanitize_dataset(source_dir, dest_dir, force_rescan, workers)`.
Control flow in program order: skip and return `True` when the destination
exists and no rescan is forced; collect tasks; return `False` when none were
found; build `process_tasks`; `Pool(num_workers)` raises `ValueError` when
the worker count is below one (multiprocessing's own validation); otherwise
process every task, collect the non-`None` results as `errors`, print at
most the first 10 of them, and return `True` iff `errors` is empty.  Result
aggregation order is modelled as task order (the pool's completion order is
nondeterministic; no claim depends on it). -/
def sanitize_dataset (srcRoot destRoot : List String) (srcFS : Option (List FSEntry))
    (destExists : Bool) (force_rescan : Bool) (workers : Option Int) (cpuCount : Nat)
    (proc : Task → Option String) : RunReport :=
  if destExists ∧ ¬force_rescan then
    ⟨.ret true, [], [], [], []⟩
  else
    let tasks := discover srcFS
    if tasks = [] then ⟨.ret false, tasks, [], [], []⟩
    else
      let process_tasks := tasks.map (buildTask srcRoot destRoot)
      if numWorkers workers cpuCount < 1 then
        ⟨.raise "Number of processes must be at least 1", tasks, [], [], []⟩
      else
        let errors := (process_tasks.map proc).filterMap id
        if errors = [] then ⟨.ret true, tasks, process_tasks, errors, []⟩
        else ⟨.ret false, tasks, process_tasks, errors, errors.take 10⟩

/-- An entry's final segment ends with the lower-cased or the upper-cased
form of some supported extension — the exact condition under which the
collection loop picks it up. -/
def matchesSupported (base : String) : Bool :=
  supported_formats.any fun ext =>
    hasSuffix base.toList (lowerChars ext.toList) || hasSuffix base.toList (upperChars ext.toList)

theorem mem_discover {es : List FSEntry} {e : FSEntry} :
    e ∈ discover (some es) ↔ e ∈ es ∧ matchesSupported e.base = true := by
  simp only [discover, rglobHits, matchesSupported, List.mem_flatMap, List.mem_append,
    List.mem_filter, List.any_eq_true, Bool.or_eq_true]
  constructor
  · rintro ⟨ext, hext, (⟨he, hp⟩ | ⟨he, hp⟩)⟩
    · exact ⟨he, ext, hext, Or.inl hp⟩
    · exact ⟨he, ext, hext, Or.inr hp⟩
  · rintro ⟨he, ext, hext, (hp | hp)⟩
    · exact ⟨ext, hext, Or.inl ⟨he, hp⟩⟩
    · exact ⟨ext, hext, Or.inr ⟨he, hp⟩⟩

theorem run_skip_eq (srcRoot destRoot : List String) (srcFS : Option (List FSEntry))
    (workers : Option Int) (cpuCount : Nat) (proc : Task → Option String) :
    sanitize_dataset srcRoot destRoot srcFS true false workers cpuCount proc =
      ⟨.ret true, [], [], [], []⟩ := by
  simp [sanitize_dataset]

theorem run_not_skipped (destExists force_rescan : Bool)
    (hexec : destExists = false ∨ force_rescan = true) :
    ¬(destExists = true ∧ ¬force_rescan = true) := by
  rcases hexec with h | h <;> simp [h]

theorem run_no_tasks_eq (srcRoot destRoot : List String) (srcFS : Option (List FSEntry))
    (destExists force_rescan : Bool) (workers : Option Int) (cpuCount : Nat)
    (proc : Task → Option String)
    (hexec : destExists = false ∨ force_rescan = true) (ht : discover srcFS = []) :
    sanitize_dataset srcRoot destRoot srcFS destExists force_rescan workers cpuCount proc =
      ⟨.ret false, [], [], [], []⟩ := by
  rw [sanitize_dataset, if_neg (run_not_skipped destExists force_rescan hexec)]
  simp [ht]

theorem run_pool_error_eq (srcRoot destRoot : List String) (srcFS : Option (List FSEntry))
    (destExists force_rescan : Bool) (workers : Option Int) (cpuCount : Nat)
    (proc : Task → Option String)
    (hexec : destExists = false ∨ force_rescan = true) (ht : discover srcFS ≠ [])
    (hw : numWorkers workers cpuCount < 1) :
    sanitize_dataset srcRoot destRoot srcFS destExists force_rescan workers cpuCount proc =
      ⟨.raise "Number of processes must be at least 1", discover srcFS, [], [], []⟩ := by
  rw [sanitize_dataset, if_neg (run_not_skipped destExists force_rescan hexec)]
  simp only [ht, if_neg ht, if_pos hw]
  rfl

theorem run_processing_eq (srcRoot destRoot : List String) (srcFS : Option (List FSEntry))
    (destExists force_rescan : Bool) (workers : Option Int) (cpuCount : Nat)
    (proc : Task → Option String)
    (hexec : destExists = false ∨ force_rescan = true) (ht : discover srcFS ≠ [])
    (hw : 1 ≤ numWorkers workers cpuCount) :
    sanitize_dataset srcRoot destRoot srcFS destExists force_rescan workers cpuCount proc =
      (if ((discover srcFS).map (buildTask srcRoot destRoot)).filterMap proc = [] then
        ⟨.ret true, discover srcFS, (discover srcFS).map (buildTask srcRoot destRoot),
          ((discover srcFS).map (buildTask srcRoot destRoot)).filterMap proc, []⟩
      else
        ⟨.ret false, discover srcFS, (discover srcFS).map (buildTask srcRoot destRoot),
          ((discover srcFS).map (buildTask srcRoot destRoot)).filterMap proc,
          (((discover srcFS).map (buildTask srcRoot destRoot)).filterMap proc).take 10⟩) := by
  rw [sanitize_dataset, if_neg (run_not_skipped destExists force_rescan hexec)]
  simp only [ht, if_neg ht, if_neg (by omega : ¬numWorkers workers cpuCount < 1)]
  rw [List.filterMap_map]
  rfl

theorem round_aspect_cases (q : ℚ) (key : ℤ → ℚ) :
    round_aspect q key = max ⌊q⌋ 1 ∨ round_aspect q key = max ⌈q⌉ 1 := by
  unfold round_aspect
  split <;> [exact Or.inl rfl; exact Or.inr rfl]

theorem abs_floor_sub_le (q : ℚ) : |((⌊q⌋ : ℤ) : ℚ) - q| ≤ 1 := by
  have h1 := Int.floor_le q
  have h2 := Int.sub_one_lt_floor q
  rw [abs_le]
  constructor <;> linarith

theorem abs_ceil_sub_le (q : ℚ) : |((⌈q⌉ : ℤ) : ℚ) - q| ≤ 1 := by
  have h1 := Int.le_ceil q
  have h2 := Int.ceil_lt_add_one q
  rw [abs_le]
  constructor <;> linarith

theorem max_one_abs_sub_le (c : ℤ) (q : ℚ) (h0 : 0 ≤ q) (hc : |(c : ℚ) - q| ≤ 1) :
    |((max c 1 : ℤ) : ℚ) - q| ≤ 1 := by
  rcases le_or_lt 1 c with h1 | h1
  · rw [max_eq_left h1]
    exact hc
  · rw [max_eq_right (by omega)]
    rw [abs_le] at hc ⊢
    have hcq : (c : ℚ) ≤ 0 := by exact_mod_cast Int.le_of_lt_add_one (by omega : c < 0 + 1)
    constructor <;> push_cast <;> linarith [hc.1, hc.2]

theorem one_le_round_aspect (q : ℚ) (key : ℤ → ℚ) : 1 ≤ round_aspect q key := by
  rcases round_aspect_cases q key with h | h <;> rw [h] <;> exact le_max_right _ 1

theorem round_aspect_le (q : ℚ) (key : ℤ → ℚ) (h : q ≤ 1024) :
    round_aspect q key ≤ 1024 := by
  have hceil : ⌈q⌉ ≤ 1024 := Int.ceil_le.mpr (by exact_mod_cast h)
  have hfloor : ⌊q⌋ ≤ 1024 := le_trans (Int.floor_le_ceil q) hceil
  rcases round_aspect_cases q key with h | h <;> rw [h] <;>
    exact max_le (by assumption) (by norm_num)

theorem abs_round_aspect_sub_le (q : ℚ) (key : ℤ → ℚ) (h0 : 0 ≤ q) :
    |((round_aspect q key : ℤ) : ℚ) - q| ≤ 1 := by
  rcases round_aspect_cases q key with h | h <;> rw [h]
  · exact max_one_abs_sub_le _ _ h0 (abs_floor_sub_le q)
  · exact max_one_abs_sub_le _ _ h0 (abs_ceil_sub_le q)

theorem round_aspect_toNat_cast (q : ℚ) (key : ℤ → ℚ) :
    (((round_aspect q key).toNat : ℕ) : ℚ) = ((round_aspect q key : ℤ) : ℚ) := by
  have h1 := one_le_round_aspect q key
  have h2 : ((round_aspect q key).toNat : ℤ) = round_aspect q key :=
    Int.toNat_of_nonneg (by omega)
  exact_mod_cast congrArg (fun z : ℤ => (z : ℚ)) h2

theorem round_aspect_toNat_le (q : ℚ) (key : ℤ → ℚ) (h : q ≤ 1024) :
    (round_aspect q key).toNat ≤ 1024 := by
  have := Int.toNat_le_toNat (round_aspect_le q key h)
  simpa using this

theorem pilThumbnail_spec (w h : Nat) (hh : 0 < h) (hbig : 2048 < w ∨ 2048 < h) :
    ∃ p : Nat × Nat, pilThumbnail TARGET_SIZE_AFTER_RESIZE w h = .ok p ∧
      p.1 ≤ 1024 ∧ p.2 ≤ 1024 ∧
      (|(p.1 : ℚ) - (w : ℚ) * (p.2 : ℚ) / (h : ℚ)| ≤ 1 ∨
       |(p.2 : ℚ) - (h : ℚ) * (p.1 : ℚ) / (w : ℚ)| ≤ 1) := by
  have hhq : (0 : ℚ) < (h : ℚ) := by exact_mod_cast hh
  have hc1024 : ((1024 : ℕ) : ℚ) = (1024 : ℚ) := by norm_num
  rw [pilThumbnail]
  simp only [TARGET_SIZE_AFTER_RESIZE]
  rw [if_neg (by omega : ¬(w ≤ 1024 ∧ h ≤ 1024)), if_neg (by omega : ¬h = 0)]
  simp only [hc1024]
  set aspect : ℚ := (w : ℚ) / (h : ℚ) with haspect
  have h0a : 0 ≤ aspect := by positivity
  by_cases hcase : (1024 : ℚ) / (1024 : ℚ) ≥ aspect
  · have h1 : aspect ≤ 1 := by
      have : ((1024 : ℚ) / (1024 : ℚ)) = 1 := by norm_num
      linarith [hcase, this.symm.le]
    rw [if_pos hcase]
    set q : ℚ := (1024 : ℚ) * aspect with hq
    have hq0 : 0 ≤ q := by positivity
    have hq1024 : q ≤ 1024 := by nlinarith
    refine ⟨_, rfl, ?_, by norm_num, Or.inl ?_⟩
    · exact round_aspect_toNat_le q _ hq1024
    · have hcast := round_aspect_toNat_cast q (fun n => |aspect - (n : ℚ) / (1024 : ℚ)|)
      rw [hcast]
      have heq : (w : ℚ) * ((1024 : ℕ) : ℚ) / (h : ℚ) = q := by
        rw [hq, haspect]
        push_cast
        ring
      rw [heq]
      exact abs_round_aspect_sub_le q _ hq0
  · have h1 : 1 < aspect := by
      push_neg at hcase
      have : ((1024 : ℚ) / (1024 : ℚ)) = 1 := by norm_num
      linarith [hcase, this.le]
    have hwq : (0 : ℚ) < (w : ℚ) := by
      rcases lt_or_le 0 ((w : ℕ) : ℚ) with hp | hp
      · exact hp
      · exfalso
        have : aspect ≤ 0 := div_nonpos_of_nonpos_of_nonneg hp hhq.le
        linarith
    rw [if_neg hcase]
    set q : ℚ := (1024 : ℚ) / aspect with hq
    have ha0 : 0 < aspect := lt_trans zero_lt_one h1
    have hq0 : 0 ≤ q := by positivity
    have hq1024 : q ≤ 1024 := div_le_self (by norm_num) h1.le
    refine ⟨_, rfl, by norm_num, ?_, Or.inr ?_⟩
    · exact round_aspect_toNat_le q _ hq1024
    · have hcast := round_aspect_toNat_cast q
        (fun n => if n = 0 then 0 else |aspect - (1024 : ℚ) / (n : ℚ)|)
      rw [hcast]
      have heq : (h : ℚ) * ((1024 : ℕ) : ℚ) / (w : ℚ) = q := by
        rw [hq, haspect]
        push_cast
        field_simp
        ring
      rw [heq]
      exact abs_round_aspect_sub_le q _ hq0

/-- C1: on every run that reaches the Execute path (destination missing or
force set) and completes, `sanitize_dataset` returns `true` iff at least one
task was discovered and the untruncated error list is empty; in particular
it returns `false` when discovery finds nothing and `false` whenever the
error list is non-empty. -/
theorem execute_verdict_iff (srcRoot destRoot : List String) (srcFS : Option (List FSEntry))
    (destExists force_rescan : Bool) (workers : Option Int) (cpuCount : Nat)
    (proc : Task → Option String)
    (hexec : destExists = false ∨ force_rescan = true)
    (hw : 1 ≤ numWorkers workers cpuCount) :
    ((sanitize_dataset srcRoot destRoot srcFS destExists force_rescan workers cpuCount
        proc).result = PyResult.ret true
      ↔ discover srcFS ≠ [] ∧
        (sanitize_dataset srcRoot destRoot srcFS destExists force_rescan workers cpuCount
          proc).errors = [])
    ∧ (discover srcFS = [] →
        (sanitize_dataset srcRoot destRoot srcFS destExists force_rescan workers cpuCount
          proc).result = PyResult.ret false)
    ∧ ((sanitize_dataset srcRoot destRoot srcFS destExists force_rescan workers cpuCount
          proc).errors ≠ [] →
        (sanitize_dataset srcRoot destRoot srcFS destExists force_rescan workers cpuCount
          proc).result = PyResult.ret false) := by
  by_cases ht : discover srcFS = []
  · rw [run_no_tasks_eq srcRoot destRoot srcFS destExists force_rescan workers cpuCount proc
      hexec ht]
    simp [ht]
  · rw [run_processing_eq srcRoot destRoot srcFS destExists force_rescan workers cpuCount proc
      hexec ht hw]
    by_cases he : ((discover srcFS).map (buildTask srcRoot destRoot)).filterMap proc = []
    · rw [if_pos he]
      simp [he, ht]
    · rw [if_neg he]
      refine ⟨⟨fun hcon => ?_, fun hcon => absurd hcon.2 he⟩, fun hcon => absurd hcon ht,
        fun _ => rfl⟩
      simp at hcon

theorem execute_verdict_iff_witness :
    ((sanitize_dataset ["raw"] ["out"] (some [⟨[], "b.jpg", FKind.file⟩]) false false none 4
        (fun _ => none)).result = PyResult.ret true
      ↔ discover (some [⟨[], "b.jpg", FKind.file⟩]) ≠ [] ∧
        (sanitize_dataset ["raw"] ["out"] (some [⟨[], "b.jpg", FKind.file⟩]) false false none 4
          (fun _ => none)).errors = [])
    ∧ (discover (some [⟨[], "b.jpg", FKind.file⟩]) = [] →
        (sanitize_dataset ["raw"] ["out"] (some [⟨[], "b.jpg", FKind.file⟩]) false false none 4
          (fun _ => none)).result = PyResult.ret false)
    ∧ ((sanitize_dataset ["raw"] ["out"] (some [⟨[], "b.jpg", FKind.file⟩]) false false none 4
          (fun _ => none)).errors ≠ [] →
        (sanitize_dataset ["raw"] ["out"] (some [⟨[], "b.jpg", FKind.file⟩]) false false none 4
          (fun _ => none)).result = PyResult.ret false) :=
  execute_verdict_iff ["raw"] ["out"] (some [⟨[], "b.jpg", FKind.file⟩]) false false none 4
    (fun _ => none) (Or.inl rfl) (by decide)

/-- C2: `sanitize_image` is total over the task boundary: it returns `none`
exactly when directory creation, decode, convert, conditional resize and
write all succeed, and on any step error it returns the message
`"Error processing <sourcePath>: <details>"` built by `errMsg`. -/
theorem sanitize_image_catches_all_errors (env : PyEnv) (t : Task) :
    (sanitize_image env t = none ↔ pipelineOk env = true)
    ∧ ∀ s, sanitize_image env t = some s → ∃ d, s = errMsg t.src d := by
  obtain ⟨m, o, c, sv⟩ := env
  cases m with
  | err e =>
    refine ⟨by simp [sanitize_image, pipelineOk, Res.isOk], fun s hs => ⟨e, ?_⟩⟩
    have h2 : some (errMsg t.src e) = some s := hs
    exact (Option.some.inj h2).symm
  | ok mu =>
    cases o with
    | err e =>
      refine ⟨by simp [sanitize_image, pipelineOk, Res.isOk], fun s hs => ⟨e, ?_⟩⟩
      have h2 : some (errMsg t.src e) = some s := hs
      exact (Option.some.inj h2).symm
    | ok img =>
      cases c with
      | err e =>
        refine ⟨by simp [sanitize_image, pipelineOk, Res.isOk], fun s hs => ⟨e, ?_⟩⟩
        have h2 : some (errMsg t.src e) = some s := hs
        exact (Option.some.inj h2).symm
      | ok cu =>
        cases hr : resizeStep img with
        | err e =>
          refine ⟨by simp [sanitize_image, pipelineOk, Res.isOk, hr], fun s hs => ⟨e, ?_⟩⟩
          simp only [sanitize_image, hr, Option.some.injEq] at hs
          exact hs.symm
        | ok img2 =>
          cases sv with
          | err e =>
            refine ⟨by simp [sanitize_image, pipelineOk, Res.isOk, hr], fun s hs => ⟨e, ?_⟩⟩
            simp only [sanitize_image, hr, Option.some.injEq] at hs
            exact hs.symm
          | ok su =>
            refine ⟨by simp [sanitize_image, pipelineOk, Res.isOk, hr], fun s hs => ?_⟩
            simp only [sanitize_image, hr] at hs
            exact Option.noConfusion hs

theorem sanitize_image_catches_all_errors_witness :
    sanitize_image ⟨Res.ok (), Res.ok ⟨500, 500⟩, Res.ok (), Res.ok ()⟩
      ⟨["raw", "a.png"], ["out", "a.jpg"]⟩ = none :=
  (sanitize_image_catches_all_errors ⟨Res.ok (), Res.ok ⟨500, 500⟩, Res.ok (), Res.ok ()⟩
    ⟨["raw", "a.png"], ["out", "a.jpg"]⟩).1.mpr (by decide)

/-- C3: when the destination exists and force is unset, `sanitize_dataset`
returns `true` immediately: no discovery, no tasks handed to the pool, no
errors and nothing displayed — the run performs no work beyond the
existence check. -/
theorem skip_branch_no_work (srcRoot destRoot : List String) (srcFS : Option (List FSEntry))
    (destExists force_rescan : Bool) (workers : Option Int) (cpuCount : Nat)
    (proc : Task → Option String) (hdest : destExists = true) (hforce : force_rescan = false) :
    sanitize_dataset srcRoot destRoot srcFS destExists force_rescan workers cpuCount proc =
      ⟨PyResult.ret true, [], [], [], []⟩ := by
  subst hdest
  subst hforce
  exact run_skip_eq srcRoot destRoot srcFS workers cpuCount proc

theorem skip_branch_no_work_witness :
    sanitize_dataset ["raw"] ["out"] (some [⟨[], "b.jpg", FKind.file⟩]) true false none 4
      (fun _ => some "never") = ⟨PyResult.ret true, [], [], [], []⟩ :=
  skip_branch_no_work ["raw"] ["out"] (some [⟨[], "b.jpg", FKind.file⟩]) true false none 4
    (fun _ => some "never") rfl rfl

/-- C4: for every successfully decoded image with positive height, if either
dimension exceeds 2048 the conditional resize succeeds and yields dimensions
both at most 1024 with the aspect ratio preserved to within one pixel of
rounding; if both dimensions are at most 2048 the image is left exactly as
decoded — no upscaling ever occurs. -/
theorem resize_bounds_and_no_upscale (img : Img) (hh : 0 < img.height) :
    ((2048 < img.width ∨ 2048 < img.height) →
      resizeStep img = Res.ok (thumbImg img) ∧
      (thumbImg img).width ≤ 1024 ∧ (thumbImg img).height ≤ 1024 ∧
      (|((thumbImg img).width : ℚ) -
          (img.width : ℚ) * ((thumbImg img).height : ℚ) / (img.height : ℚ)| ≤ 1 ∨
       |((thumbImg img).height : ℚ) -
          (img.height : ℚ) * ((thumbImg img).width : ℚ) / (img.width : ℚ)| ≤ 1))
    ∧ ((img.width ≤ 2048 ∧ img.height ≤ 2048) → resizeStep img = Res.ok img) := by
  constructor
  · intro hbig
    obtain ⟨p, hp, h1, h2, h3⟩ := pilThumbnail_spec img.width img.height hh hbig
    have hcond : MAX_RESOLUTION_BEFORE_RESIZE.1 < img.width ∨
        MAX_RESOLUTION_BEFORE_RESIZE.2 < img.height := by
      simpa [MAX_RESOLUTION_BEFORE_RESIZE] using hbig
    have hstep : resizeStep img = Res.ok ⟨p.1, p.2⟩ := by
      rw [resizeStep, if_pos hcond, hp]
    have hthumb : thumbImg img = ⟨p.1, p.2⟩ := by
      rw [thumbImg, hp]
    rw [hstep, hthumb]
    exact ⟨rfl, h1, h2, h3⟩
  · intro hsmall
    rw [resizeStep, if_neg]
    simp only [MAX_RESOLUTION_BEFORE_RESIZE]
    omega

theorem resize_bounds_and_no_upscale_witness :
    0 < (Img.mk 4000 3000).height ∧
    (((2048 < (Img.mk 4000 3000).width ∨ 2048 < (Img.mk 4000 3000).height) →
      resizeStep (Img.mk 4000 3000) = Res.ok (thumbImg (Img.mk 4000 3000)) ∧
      (thumbImg (Img.mk 4000 3000)).width ≤ 1024 ∧
      (thumbImg (Img.mk 4000 3000)).height ≤ 1024 ∧
      (|((thumbImg (Img.mk 4000 3000)).width : ℚ) -
          ((Img.mk 4000 3000).width : ℚ) * ((thumbImg (Img.mk 4000 3000)).height : ℚ) /
            ((Img.mk 4000 3000).height : ℚ)| ≤ 1 ∨
       |((thumbImg (Img.mk 4000 3000)).height : ℚ) -
          ((Img.mk 4000 3000).height : ℚ) * ((thumbImg (Img.mk 4000 3000)).width : ℚ) /
            ((Img.mk 4000 3000).width : ℚ)| ≤ 1))
    ∧ (((Img.mk 4000 3000).width ≤ 2048 ∧ (Img.mk 4000 3000).height ≤ 2048) →
        resizeStep (Img.mk 4000 3000) = Res.ok (Img.mk 4000 3000))) :=
  ⟨by decide, resize_bounds_and_no_upscale (Img.mk 4000 3000) (by decide)⟩

/-- C5 counterexample: the file `a.Jpg` has extension `jpg` up to case, yet
discovery creates no task for it — the collection loop only globs the
all-lower and all-upper spellings of each supported extension. -/
theorem mixed_case_extension_missed :
    discover (some [⟨[], "a.Jpg", FKind.file⟩]) = [] ∧
    hasSuffix (lowerChars "a.Jpg".toList) ".jpg".toList = true := by
  exact ⟨by decide, by decide⟩

/-- C5 (amended): discovery collects exactly the entries whose final segment
ends with the all-lowercase or the all-uppercase spelling of a supported
extension; mixed-case extensions are not matched. -/
theorem discovery_lower_or_upper_only (es : List FSEntry) (e : FSEntry) :
    e ∈ discover (some es) ↔ e ∈ es ∧ matchesSupported e.base = true :=
  mem_discover

theorem discovery_lower_or_upper_only_witness :
    (⟨[], "b.jpg", FKind.file⟩ : FSEntry) ∈ discover (some [⟨[], "b.jpg", FKind.file⟩]) :=
  (discovery_lower_or_upper_only [⟨[], "b.jpg", FKind.file⟩] ⟨[], "b.jpg", FKind.file⟩).mpr
    ⟨by decide, by decide⟩

/-- C6 counterexample: with a nonexistent source directory and an absent
destination, `sanitize_dataset` returns the ordinary `NoSupportedFiles`
verdict `false` — identical to the report for an existing-but-empty source
tree — instead of aborting with a distinguishable `InvalidInput` error:
`Path.rglob` over a missing directory silently yields nothing. -/
theorem missing_source_returns_no_supported_files :
    sanitize_dataset ["raw_data"] ["dataset_sanitized"] none false false none 4
      (fun _ => none) = ⟨PyResult.ret false, [], [], [], []⟩ := by
  decide

/-- C6 (amended): if the source directory does not exist and the skip branch
is not taken, discovery yields zero tasks and `sanitize_dataset` returns the
`NoSupportedFiles` batch-failure report (`false`), raising nothing. -/
theorem missing_source_empty_discovery_failure (srcRoot destRoot : List String)
    (srcFS : Option (List FSEntry)) (destExists force_rescan : Bool) (workers : Option Int)
    (cpuCount : Nat) (proc : Task → Option String)
    (hsrc : srcFS = none) (hexec : destExists = false ∨ force_rescan = true) :
    sanitize_dataset srcRoot destRoot srcFS destExists force_rescan workers cpuCount proc =
      ⟨PyResult.ret false, [], [], [], []⟩ := by
  subst hsrc
  exact run_no_tasks_eq srcRoot destRoot none destExists force_rescan workers cpuCount proc
    hexec rfl

theorem missing_source_empty_discovery_failure_witness :
    sanitize_dataset ["r"] ["d"] none false true (some 1) 8 (fun _ => some "boom") =
      ⟨PyResult.ret false, [], [], [], []⟩ :=
  missing_source_empty_discovery_failure ["r"] ["d"] none false true (some 1) 8
    (fun _ => some "boom") rfl (Or.inl rfl)

/-- C7 counterexample: with `workers = 0` but an existing destination and no
force flag, the run returns `true` and never fails — the worker count is
only validated when a pool is actually constructed, so the claim's
unconditional failure does not hold. -/
theorem nonpositive_workers_skip_returns_true :
    sanitize_dataset ["raw"] ["out"] (some [⟨[], "b.jpg", FKind.file⟩]) true false (some 0) 4
      (fun _ => none) = ⟨PyResult.ret true, [], [], [], []⟩ := by
  decide

/-- C7 (amended): when the Execute path is reached and at least one task was
discovered, an explicitly supplied worker count of at most zero makes the
run fail with the pool's `ValueError` before any task is dispatched — no
task is processed and nothing is written; in the skip and no-tasks branches
the worker count is never validated. -/
theorem nonpositive_workers_pool_error (srcRoot destRoot : List String)
    (srcFS : Option (List FSEntry)) (destExists force_rescan : Bool) (k : Int)
    (cpuCount : Nat) (proc : Task → Option String)
    (hexec : destExists = false ∨ force_rescan = true) (ht : discover srcFS ≠ [])
    (hk : k ≤ 0) :
    sanitize_dataset srcRoot destRoot srcFS destExists force_rescan (some k) cpuCount proc =
      ⟨PyResult.raise "Number of processes must be at least 1", discover srcFS, [], [], []⟩ := by
  have hw : numWorkers (some k) cpuCount < 1 := by
    simp only [numWorkers, Option.getD_some]
    omega
  exact run_pool_error_eq srcRoot destRoot srcFS destExists force_rescan (some k) cpuCount proc
    hexec ht hw

theorem nonpositive_workers_pool_error_witness :
    sanitize_dataset ["raw"] ["out"] (some [⟨[], "b.jpg", FKind.file⟩]) false false (some 0) 4
      (fun _ => none) =
      ⟨PyResult.raise "Number of processes must be at least 1",
        discover (some [⟨[], "b.jpg", FKind.file⟩]), [], [], []⟩ :=
  nonpositive_workers_pool_error ["raw"] ["out"] (some [⟨[], "b.jpg", FKind.file⟩]) false false 0 4
    (fun _ => none) (Or.inl rfl) (by decide) (by decide)

/-- C8: on a completed processing run, at most the first 10 error messages
are displayed (`errors[:10]`), while the verdict is computed from the full
untruncated error list: `true` exactly when that list is empty, `false`
whenever it is non-empty, however many errors are shown. -/
theorem display_cap_ten_full_verdict (srcRoot destRoot : List String)
    (srcFS : Option (List FSEntry)) (destExists force_rescan : Bool) (workers : Option Int)
    (cpuCount : Nat) (proc : Task → Option String)
    (hexec : destExists = false ∨ force_rescan = true) (ht : discover srcFS ≠ [])
    (hw : 1 ≤ numWorkers workers cpuCount) :
    ((sanitize_dataset srcRoot destRoot srcFS destExists force_rescan workers cpuCount
        proc).displayed =
      ((sanitize_dataset srcRoot destRoot srcFS destExists force_rescan workers cpuCount
        proc).errors).take 10)
    ∧ ((sanitize_dataset srcRoot destRoot srcFS destExists force_rescan workers cpuCount
        proc).displayed).length ≤ 10
    ∧ ((sanitize_dataset srcRoot destRoot srcFS destExists force_rescan workers cpuCount
          proc).result = PyResult.ret true
        ↔ (sanitize_dataset srcRoot destRoot srcFS destExists force_rescan workers cpuCount
          proc).errors = [])
    ∧ ((sanitize_dataset srcRoot destRoot srcFS destExists force_rescan workers cpuCount
          proc).errors ≠ [] →
        (sanitize_dataset srcRoot destRoot srcFS destExists force_rescan workers cpuCount
          proc).result = PyResult.ret false) := by
  rw [run_processing_eq srcRoot destRoot srcFS destExists force_rescan workers cpuCount proc
    hexec ht hw]
  by_cases he : ((discover srcFS).map (buildTask srcRoot destRoot)).filterMap proc = []
  · rw [if_pos he]
    exact ⟨by simp [he], by simp, by simp [he], fun hcon => absurd he hcon⟩
  · rw [if_neg he]
    refine ⟨rfl, ?_, ⟨fun hcon => by simp at hcon, fun hcon => absurd hcon he⟩, fun _ => rfl⟩
    rw [List.length_take]
    exact min_le_left _ _

theorem display_cap_ten_full_verdict_witness :
    ((sanitize_dataset ["raw"] ["out"]
        (some [⟨[], "a0.jpg", FKind.file⟩, ⟨[], "a1.jpg", FKind.file⟩,
          ⟨[], "a2.jpg", FKind.file⟩, ⟨[], "a3.jpg", FKind.file⟩, ⟨[], "a4.jpg", FKind.file⟩,
          ⟨[], "a5.jpg", FKind.file⟩, ⟨[], "a6.jpg", FKind.file⟩, ⟨[], "a7.jpg", FKind.file⟩,
          ⟨[], "a8.jpg", FKind.file⟩, ⟨[], "a9.jpg", FKind.file⟩, ⟨[], "b0.jpg", FKind.file⟩])
        false false none 4 (fun t => some (errMsg t.src "bad"))).displayed =
      ((sanitize_dataset ["raw"] ["out"]
        (some [⟨[], "a0.jpg", FKind.file⟩, ⟨[], "a1.jpg", FKind.file⟩,
          ⟨[], "a2.jpg", FKind.file⟩, ⟨[], "a3.jpg", FKind.file⟩, ⟨[], "a4.jpg", FKind.file⟩,
          ⟨[], "a5.jpg", FKind.file⟩, ⟨[], "a6.jpg", FKind.file⟩, ⟨[], "a7.jpg", FKind.file⟩,
          ⟨[], "a8.jpg", FKind.file⟩, ⟨[], "a9.jpg", FKind.file⟩, ⟨[], "b0.jpg", FKind.file⟩])
        false false none 4 (fun t => some (errMsg t.src "bad"))).errors).take 10)
    ∧ ((sanitize_dataset ["raw"] ["out"]
        (some [⟨[], "a0.jpg", FKind.file⟩, ⟨[], "a1.jpg", FKind.file⟩,
          ⟨[], "a2.jpg", FKind.file⟩, ⟨[], "a3.jpg", FKind.file⟩, ⟨[], "a4.jpg", FKind.file⟩,
          ⟨[], "a5.jpg", FKind.file⟩, ⟨[], "a6.jpg", FKind.file⟩, ⟨[], "a7.jpg", FKind.file⟩,
          ⟨[], "a8.jpg", FKind.file⟩, ⟨[], "a9.jpg", FKind.file⟩, ⟨[], "b0.jpg", FKind.file⟩])
        false false none 4 (fun t => some (errMsg t.src "bad"))).displayed).length ≤ 10
    ∧ ((sanitize_dataset ["raw"] ["out"]
        (some [⟨[], "a0.jpg", FKind.file⟩, ⟨[], "a1.jpg", FKind.file⟩,
          ⟨[], "a2.jpg", FKind.file⟩, ⟨[], "a3.jpg", FKind.file⟩, ⟨[], "a4.jpg", FKind.file⟩,
          ⟨[], "a5.jpg", FKind.file⟩, ⟨[], "a6.jpg", FKind.file⟩, ⟨[], "a7.jpg", FKind.file⟩,
          ⟨[], "a8.jpg", FKind.file⟩, ⟨[], "a9.jpg", FKind.file⟩, ⟨[], "b0.jpg", FKind.file⟩])
        false false none 4 (fun t => some (errMsg t.src "bad"))).result = PyResult.ret true
        ↔ (sanitize_dataset ["raw"] ["out"]
        (some [⟨[], "a0.jpg", FKind.file⟩, ⟨[], "a1.jpg", FKind.file⟩,
          ⟨[], "a2.jpg", FKind.file⟩, ⟨[], "a3.jpg", FKind.file⟩, ⟨[], "a4.jpg", FKind.file⟩,
          ⟨[], "a5.jpg", FKind.file⟩, ⟨[], "a6.jpg", FKind.file⟩, ⟨[], "a7.jpg", FKind.file⟩,
          ⟨[], "a8.jpg", FKind.file⟩, ⟨[], "a9.jpg", FKind.file⟩, ⟨[], "b0.jpg", FKind.file⟩])
        false false none 4 (fun t => some (errMsg t.src "bad"))).errors = [])
    ∧ ((sanitize_dataset ["raw"] ["out"]
        (some [⟨[], "a0.jpg", FKind.file⟩, ⟨[], "a1.jpg", FKind.file⟩,
          ⟨[], "a2.jpg", FKind.file⟩, ⟨[], "a3.jpg", FKind.file⟩, ⟨[], "a4.jpg", FKind.file⟩,
          ⟨[], "a5.jpg", FKind.file⟩, ⟨[], "a6.jpg", FKind.file⟩, ⟨[], "a7.jpg", FKind.file⟩,
          ⟨[], "a8.jpg", FKind.file⟩, ⟨[], "a9.jpg", FKind.file⟩, ⟨[], "b0.jpg", FKind.file⟩])
        false false none 4 (fun t => some (errMsg t.src "bad"))).errors ≠ [] →
        (sanitize_dataset ["raw"] ["out"]
        (some [⟨[], "a0.jpg", FKind.file⟩, ⟨[], "a1.jpg", FKind.file⟩,
          ⟨[], "a2.jpg", FKind.file⟩, ⟨[], "a3.jpg", FKind.file⟩, ⟨[], "a4.jpg", FKind.file⟩,
          ⟨[], "a5.jpg", FKind.file⟩, ⟨[], "a6.jpg", FKind.file⟩, ⟨[], "a7.jpg", FKind.file⟩,
          ⟨[], "a8.jpg", FKind.file⟩, ⟨[], "a9.jpg", FKind.file⟩, ⟨[], "b0.jpg", FKind.file⟩])
        false false none 4 (fun t => some (errMsg t.src "bad"))).result = PyResult.ret false) :=
  display_cap_ten_full_verdict ["raw"] ["out"]
    (some [⟨[], "a0.jpg", FKind.file⟩, ⟨[], "a1.jpg", FKind.file⟩,
      ⟨[], "a2.jpg", FKind.file⟩, ⟨[], "a3.jpg", FKind.file⟩, ⟨[], "a4.jpg", FKind.file⟩,
      ⟨[], "a5.jpg", FKind.file⟩, ⟨[], "a6.jpg", FKind.file⟩, ⟨[], "a7.jpg", FKind.file⟩,
      ⟨[], "a8.jpg", FKind.file⟩, ⟨[], "a9.jpg", FKind.file⟩, ⟨[], "b0.jpg", FKind.file⟩])
    false false none 4 (fun t => some (errMsg t.src "bad")) (Or.inl rfl) (by decide) (by decide)

/-- C9: every discovered entry is mapped to the destination root joined with
its source-relative path after `.jpg` extension normalization, and this map
is injective on destination paths whenever the normalized relative names are
distinct. -/
theorem dest_mapping_injective (srcRoot destRoot : List String) (e1 e2 : FSEntry) :
    (buildTask srcRoot destRoot e1).dest = destRoot ++ normRel e1
    ∧ (normRel e1 ≠ normRel e2 →
        (buildTask srcRoot destRoot e1).dest ≠ (buildTask srcRoot destRoot e2).dest) :=
  ⟨rfl, fun hne heq => hne (List.append_cancel_left heq)⟩

theorem dest_mapping_injective_witness :
    normRel ⟨[], "a.png", FKind.file⟩ ≠ normRel ⟨[], "b.jpg", FKind.file⟩ ∧
    (buildTask ["raw"] ["out"] ⟨[], "a.png", FKind.file⟩).dest ≠
      (buildTask ["raw"] ["out"] ⟨[], "b.jpg", FKind.file⟩).dest :=
  ⟨by decide, (dest_mapping_injective ["raw"] ["out"] ⟨[], "a.png", FKind.file⟩
      ⟨[], "b.jpg", FKind.file⟩).2 (by decide)⟩

/-- C10: discovery never checks that a matched path is a regular file — a
directory whose name ends in a supported extension is enqueued like any
file; on such a task the open error is caught and `sanitize_image` returns
a `Failure` message; and any completed processing run still ends in a
returned verdict rather than an exception. -/
theorem directory_entries_enqueued_and_drained :
    (∀ (es : List FSEntry) (e : FSEntry), e ∈ es → e.kind = FKind.dir →
        matchesSupported e.base = true → e ∈ discover (some es))
    ∧ (∀ (env : PyEnv) (t : Task) (m : String),
        env.makedirs = Res.ok () → env.openImg = Res.err m →
        sanitize_image env t = some (errMsg t.src m))
    ∧ (∀ (srcRoot destRoot : List String) (srcFS : Option (List FSEntry))
        (destExists force_rescan : Bool) (workers : Option Int) (cpuCount : Nat)
        (proc : Task → Option String),
        (destExists = false ∨ force_rescan = true) → discover srcFS ≠ [] →
        1 ≤ numWorkers workers cpuCount →
        ∃ b, (sanitize_dataset srcRoot destRoot srcFS destExists force_rescan workers cpuCount
          proc).result = PyResult.ret b) := by
  refine ⟨fun es e he _ hm => mem_discover.mpr ⟨he, hm⟩,
    fun env t m hmk hop => by simp [sanitize_image, hmk, hop], ?_⟩
  intro srcRoot destRoot srcFS destExists force_rescan workers cpuCount proc hexec ht hw
  rw [run_processing_eq srcRoot destRoot srcFS destExists force_rescan workers cpuCount proc
    hexec ht hw]
  by_cases he : ((discover srcFS).map (buildTask srcRoot destRoot)).filterMap proc = []
  · exact ⟨true, by rw [if_pos he]⟩
  · exact ⟨false, by rw [if_neg he]⟩

theorem directory_entries_enqueued_and_drained_witness :
    (⟨[], "photos.jpg", FKind.dir⟩ : FSEntry) ∈ discover (some [⟨[], "photos.jpg", FKind.dir⟩])
    ∧ sanitize_image
        ⟨Res.ok (), Res.err "IsADirectoryError: Is a directory", Res.ok (), Res.ok ()⟩
        ⟨["raw", "photos.jpg"], ["out", "photos.jpg"]⟩ =
        some (errMsg ["raw", "photos.jpg"] "IsADirectoryError: Is a directory")
    ∧ ∃ b, (sanitize_dataset ["raw"] ["out"] (some [⟨[], "photos.jpg", FKind.dir⟩]) false false
        none 4 (fun _ => some "Error processing /raw/photos.jpg: Is a directory")).result =
        PyResult.ret b :=
  ⟨directory_entries_enqueued_and_drained.1 [⟨[], "photos.jpg", FKind.dir⟩]
      ⟨[], "photos.jpg", FKind.dir⟩ (by decide) rfl (by decide),
    directory_entries_enqueued_and_drained.2.1
      ⟨Res.ok (), Res.err "IsADirectoryError: Is a directory", Res.ok (), Res.ok ()⟩
      ⟨["raw", "photos.jpg"], ["out", "photos.jpg"]⟩ "IsADirectoryError: Is a directory" rfl rfl,
    directory_entries_enqueued_and_drained.2.2 ["raw"] ["out"]
      (some [⟨[], "photos.jpg", FKind.dir⟩]) false false none 4
      (fun _ => some "Error processing /raw/photos.jpg: Is a directory")
      (Or.inl rfl) (by decide) (by decide)⟩

end DataSanitizer
